import Mathlib

/-!
Verification of the DUSB device model (`src/dusb.c`), a custom QEMU USB 3.2
SuperSpeed device.  The definitions below are a shallow embedding of the
device's protocol engine: the mutable device state, the control-transfer
dispatcher `dusb_handle_control`, the data-transfer engine
`dusb_handle_data`, the periodic IN producer `dusb_in_timer`, the reset
handler `dusb_handle_reset` and the state-initialisation part of
`dusb_realize`.  Machine integers of the C code are modelled as `Nat`
(the relevant C values — setup-packet fields, buffer lengths, endpoint
numbers — are non-negative and never overflow), byte buffers as functions
`Nat → Nat`, and the QEMU timer as an armed/disarmed flag.
-/

/-- USB request codes, recipient codes and descriptor-type codes used by
`dusb.c` (from the QEMU USB headers). -/
def USB_DIR_IN : Nat := 0x80

def USB_RECIP_MASK : Nat := 0x1f

def USB_RECIP_DEVICE : Nat := 0

def USB_RECIP_INTERFACE : Nat := 1

def USB_RECIP_ENDPOINT : Nat := 2

def USB_REQ_GET_STATUS : Nat := 0x00

def USB_REQ_CLEAR_FEATURE : Nat := 0x01

def USB_REQ_SET_FEATURE : Nat := 0x03

def USB_REQ_GET_DESCRIPTOR : Nat := 0x06

def USB_REQ_SET_INTERFACE : Nat := 0x0B

def USB_REQ_SET_SEL : Nat := 0x30

def USB_DEVICE_REMOTE_WAKEUP : Nat := 1

def USB_DT_BOS : Nat := 0x0F

def USB_DT_DEVICE_CAPABILITY : Nat := 0x10

def USB_DEV_CAP_USB2_EXT : Nat := 0x02

def USB_DEV_CAP_SUPERSPEED : Nat := 0x03

/-- Negotiated link speed (`dev->speed`).  `dusb_realize` sets it to
`super`; the bus may renegotiate it. -/
inductive Speed where
  | full
  | high
  | super
deriving DecidableEq, Repr

/-- Transfer outcome (`p->status`): `USB_RET_SUCCESS`, `USB_RET_STALL` or
`USB_RET_NAK` (the not-ready outcome). -/
inductive USBRet where
  | success
  | stall
  | nak
deriving DecidableEq, Repr

/-- The device state of `dusb.c`: the `DUSBState` structure fields
(`alt`, `in_data`, `in_data_len`, `current_in_ep`, the IN timer modelled
as an armed flag) together with the `USBDevice` base-object fields the
code reads and writes (`addr`, `configuration`, `remote_wakeup`, `speed`,
and the per-endpoint `halted` flags of the endpoint objects, keyed by
direction and endpoint number). -/
structure DUSBState where
  addr : Nat
  configuration : Nat
  remoteWakeup : Bool
  alt0 : Nat
  inData : Nat → Nat → Nat
  inDataLen : Nat → Nat
  currentInEp : Nat
  inTimerArmed : Bool
  halted : Bool → Nat → Bool
  speed : Speed

/-- A concrete all-zero device state, used as a base point for concrete
instantiations. -/
def initDusb : DUSBState :=
  { addr := 0
    configuration := 0
    remoteWakeup := false
    alt0 := 0
    inData := fun _ _ => 0
    inDataLen := fun _ => 0
    currentInEp := 0
    inTimerArmed := false
    halted := fun _ _ => false
    speed := Speed.super }

/-- A concrete state with alternate setting 1 and a 64-byte payload staged
on endpoint 1. -/
def stagedDusb : DUSBState :=
  { initDusb with
    alt0 := 1
    inDataLen := fun j => if j = 0 then 64 else 0
    inData := fun j i => if j = 0 then (i + 7) % 256 else 0 }

/-- The 22-byte BOS descriptor constant `bos_descriptor` of `dusb.c`:
BOS header (5 bytes, total length 22 = 0x0016, 2 capabilities), USB 2.0
extension capability (7 bytes, LPM support) and SuperSpeed capability
(10 bytes). -/
def bos_descriptor : List Nat :=
  [0x05, USB_DT_BOS, 0x16, 0x00, 0x02,
   0x07, USB_DT_DEVICE_CAPABILITY, USB_DEV_CAP_USB2_EXT, 0x02,
   0x00, 0x00, 0x00,
   0x0A, USB_DT_DEVICE_CAPABILITY, USB_DEV_CAP_SUPERSPEED,
   0x00, 0x0E, 0x00, 0x01, 0x0A, 0xFF, 0x07]

/-- Embedding of `dusb_handle_bos_descriptor`: if the descriptor type in `value` is
`USB_DT_BOS`, copy `MIN(len, sizeof(bos_descriptor))` bytes of
`bos_descriptor` into the request buffer and return that count (here:
return the copied bytes; their number is the returned count); otherwise
return -1 (here: `none`). -/
def dusb_handle_bos_descriptor (value len : Nat) : Option (List Nat) :=
  if value / 256 = USB_DT_BOS then
    some (bos_descriptor.take (min len bos_descriptor.length))
  else
    none

/-- Modelled from the spec: `usb_desc_handle_control`, the generic
standard-descriptor resolver provided by the hosting runtime (QEMU's
`desc.c`, not part of this repository).  Per spec section 4.1 it serves
standard GET_DESCRIPTOR requests — device (type 1), configuration
(type 2), string (type 3), and BOS only at SuperSpeed — and returns
not-handled for everything else, in particular for the requests of the
dispatcher table (SET_INTERFACE, GET_STATUS, features, SET_SEL).  The
payload bytes and sizes of the device/configuration/string trees are
external data not needed by any claim; only the handled / not-handled
decision is modelled, with the handled byte count abstracted to 0. -/
def usb_desc_handle_control (speed : Speed) (bRequest value : Nat) : Option Nat :=
  if bRequest = USB_REQ_GET_DESCRIPTOR then
    if value / 256 = 1 ∨ value / 256 = 2 ∨ value / 256 = 3 then
      some 0
    else if value / 256 = USB_DT_BOS ∧ speed = Speed.super then
      some 0
    else
      none
  else
    none

/-- Result of a control transfer: packet status, `p->actual_length`, the
bytes written into the request's data buffer, and the post-transfer
device state. -/
structure ControlResult where
  status : USBRet
  actualLength : Nat
  data : List Nat
  state : DUSBState

/-- A stalled control transfer: `p->status = USB_RET_STALL`, no state
change, no bytes written. -/
def controlStall (s : DUSBState) : ControlResult :=
  { status := USBRet.stall, actualLength := 0, data := [], state := s }

/-- The `switch (bRequest)` body of `dusb_handle_control`, reached when
neither the BOS short-circuit nor the standard resolver handled the
request.  `usb_ep_get` never returns NULL for endpoint numbers 0–15 (and
`index & 0x0f` is always at most 15), so the endpoint-lookup failure
paths of the C code are unreachable and the lookup is not modelled as
fallible. -/
def dusb_control_switch (s : DUSBState)
    (bmRequestType bRequest value index length : Nat) : ControlResult :=
  let recipient := bmRequestType &&& USB_RECIP_MASK
  let direction := bmRequestType &&& USB_DIR_IN
  if bRequest = USB_REQ_GET_STATUS then
    if recipient = USB_RECIP_DEVICE then
      { status := USBRet.success, actualLength := 2,
        data := [(if s.remoteWakeup then 1 else 0) * 2, 0], state := s }
    else if recipient = USB_RECIP_INTERFACE then
      { status := USBRet.success, actualLength := 2, data := [0, 0], state := s }
    else if recipient = USB_RECIP_ENDPOINT then
      let ep := index &&& 0x0f
      let isIn : Bool := decide (index &&& 0x80 ≠ 0)
      { status := USBRet.success, actualLength := 2,
        data := [if s.halted isIn ep then 1 else 0, 0], state := s }
    else
      controlStall s
  else if bRequest = USB_REQ_CLEAR_FEATURE then
    if recipient = USB_RECIP_DEVICE ∧ value = USB_DEVICE_REMOTE_WAKEUP then
      { status := USBRet.success, actualLength := 0, data := [],
        state := { s with remoteWakeup := false } }
    else if recipient = USB_RECIP_ENDPOINT ∧ value = 0 then
      let ep := index &&& 0x0f
      let isIn : Bool := decide (index &&& 0x80 ≠ 0)
      { status := USBRet.success, actualLength := 0, data := [],
        state := { s with
          halted := fun d n => if d = isIn ∧ n = ep then false else s.halted d n } }
    else
      controlStall s
  else if bRequest = USB_REQ_SET_FEATURE then
    if recipient = USB_RECIP_DEVICE ∧ value = USB_DEVICE_REMOTE_WAKEUP then
      { status := USBRet.success, actualLength := 0, data := [],
        state := { s with remoteWakeup := true } }
    else if recipient = USB_RECIP_ENDPOINT ∧ value = 0 then
      let ep := index &&& 0x0f
      let isIn : Bool := decide (index &&& 0x80 ≠ 0)
      { status := USBRet.success, actualLength := 0, data := [],
        state := { s with
          halted := fun d n => if d = isIn ∧ n = ep then true else s.halted d n } }
    else
      controlStall s
  else if bRequest = USB_REQ_SET_INTERFACE then
    if recipient = USB_RECIP_INTERFACE ∧ index = 0 then
      if value < 2 then
        if value = 1 then
          { status := USBRet.success, actualLength := 0, data := [],
            state := { s with alt0 := value, inTimerArmed := true } }
        else
          { status := USBRet.success, actualLength := 0, data := [],
            state := { s with
              alt0 := value, inTimerArmed := false, inDataLen := fun _ => 0 } }
      else
        controlStall s
    else
      controlStall s
  else if bRequest = USB_REQ_SET_SEL then
    if recipient = USB_RECIP_DEVICE ∧ direction = 0 ∧ length = 6 then
      { status := USBRet.success, actualLength := 0, data := [], state := s }
    else
      controlStall s
  else
    controlStall s

/-- Embedding of `dusb_handle_control`: decode `bmRequestType` and `bRequest` from the
packed `request` word exactly as the C code does (`request & 0xff` and
`(request >> 8) & 0xff`), try the BOS short-circuit, then the standard
resolver, then the device-specific switch. -/
def dusb_handle_control (s : DUSBState) (request value index length : Nat) :
    ControlResult :=
  let bmRequestType := request % 256
  let bRequest := request / 256 % 256
  match (if bRequest = USB_REQ_GET_DESCRIPTOR ∧ value / 256 = USB_DT_BOS then
           dusb_handle_bos_descriptor value length
         else none) with
  | some bytes =>
    { status := USBRet.success, actualLength := bytes.length, data := bytes,
      state := s }
  | none =>
    match usb_desc_handle_control s.speed bRequest value with
    | some n =>
      { status := USBRet.success, actualLength := n, data := [], state := s }
    | none =>
      dusb_control_switch s bmRequestType bRequest value index length

/-- Result of a data transfer: packet status, `p->actual_length`, the
bytes delivered to the host (IN direction), and the post-transfer device
state. -/
structure DataResult where
  status : USBRet
  actualLength : Nat
  hostData : List Nat
  state : DUSBState

/-- Embedding of `dusb_handle_data`: halt gate, then the alternate-setting direction
gate for endpoints 1–3, then the OUT drain (consume the whole host
buffer) or the IN service (serve `MIN(p->iov.size, in_data_len[idx])`
staged bytes and mark the staging slot empty, or NAK when the slot is
empty).  `iovSize` is `p->iov.size`; `isIn` is `p->pid == USB_TOKEN_IN`;
the halt flag of the addressed endpoint is `s.halted isIn epNum`. -/
def dusb_handle_data (s : DUSBState) (epNum : Nat) (isIn : Bool)
    (iovSize : Nat) : DataResult :=
  if s.halted isIn epNum then
    { status := USBRet.stall, actualLength := 0, hostData := [], state := s }
  else if 1 ≤ epNum ∧ epNum ≤ 3 ∧
      ¬((isIn = true ∧ s.alt0 = 1) ∨ (isIn = false ∧ s.alt0 = 0)) then
    { status := USBRet.stall, actualLength := 0, hostData := [], state := s }
  else if isIn = false then
    { status := USBRet.success, actualLength := iovSize, hostData := [],
      state := s }
  else
    let idx := epNum - 1
    if 0 < s.inDataLen idx then
      let len := min iovSize (s.inDataLen idx)
      { status := USBRet.success, actualLength := len,
        hostData := (List.range len).map (s.inData idx),
        state := { s with
          inDataLen := fun j => if j = idx then 0 else s.inDataLen j } }
    else
      { status := USBRet.nak, actualLength := 0, hostData := [], state := s }

/-- The per-endpoint staging-buffer refresh of `dusb_in_timer`: byte 0 is
the endpoint number; bytes `1 ≤ i < data_len` carry the type-specific
pattern (`(i + cursor) % 256` for the interrupt endpoint 1 with
`data_len = 64`, `(i * cursor) % 256` for the isochronous endpoint 2 and
`i % 256` for the bulk endpoint 3, both with `data_len = 1024`); bytes
beyond `data_len` are left untouched. -/
def in_timer_buf (ep cursor : Nat) (old : Nat → Nat) : Nat → Nat :=
  fun i =>
    if i = 0 then ep
    else if ep = 1 then
      if i < 64 then (i + cursor) % 256 else old i
    else if ep = 2 then
      if i < 1024 then (i * cursor) % 256 else old i
    else
      if i < 1024 then i % 256 else old i

/-- Embedding of `dusb_in_timer`, the periodic IN producer: if `alt[0] == 1`, pick
`ep = current_in_ep % 3 + 1`, refresh that endpoint's staging buffer and
valid length (64 for endpoint 1, 1024 for endpoints 2 and 3; the
unreachable `default` case of the C switch sets the length to 0 without
touching a buffer) and advance the cursor; in every case re-arm the
timer (`timer_mod` is outside the alternate-setting check). -/
def dusb_in_timer (s : DUSBState) : DUSBState :=
  if s.alt0 = 1 then
    let ep := s.currentInEp % 3 + 1
    let dataLen : Nat :=
      if ep = 1 then 64 else if ep = 2 then 1024 else if ep = 3 then 1024 else 0
    { s with
      inData :=
        if ep = 1 ∨ ep = 2 ∨ ep = 3 then
          fun j => if j = ep - 1 then
                     in_timer_buf ep s.currentInEp (s.inData (ep - 1))
                   else s.inData j
        else s.inData,
      inDataLen := fun j => if j = ep - 1 then dataLen else s.inDataLen j,
      currentInEp := s.currentInEp + 1,
      inTimerArmed := true }
  else
    { s with inTimerArmed := true }

/-- Embedding of `dusb_handle_reset`: address, configuration, remote wakeup, the
alternate setting and every staged IN length go to 0/false, and the IN
timer is cancelled (`timer_del`).  Endpoint halt flags are not touched. -/
def dusb_handle_reset (s : DUSBState) : DUSBState :=
  { s with
    addr := 0
    configuration := 0
    remoteWakeup := false
    alt0 := 0
    inTimerArmed := false
    inDataLen := fun _ => 0 }

/-- The device-state initialisation performed by `dusb_realize`: the
speed is advertised as SuperSpeed, the alternate setting, staging buffers,
staged lengths and round-robin cursor are zeroed, and the IN timer is
created but not armed (only the wakeup timer is armed at realize). -/
def dusb_realize (s : DUSBState) : DUSBState :=
  { s with
    speed := Speed.super
    alt0 := 0
    inData := fun _ _ => 0
    inDataLen := fun _ => 0
    currentInEp := 0
    inTimerArmed := false }

/-- One externally triggered operation of the device: a control transfer,
a data transfer on one of the declared endpoints 1–3, a periodic-IN timer
tick, a bus reset, or (re-)realization. -/
inductive Step : DUSBState → DUSBState → Prop where
  | control (s : DUSBState) (request value index length : Nat) :
      Step s (dusb_handle_control s request value index length).state
  | data (s : DUSBState) (epNum : Nat) (isIn : Bool) (iovSize : Nat)
      (h1 : 1 ≤ epNum) (h2 : epNum ≤ 3) :
      Step s (dusb_handle_data s epNum isIn iovSize).state
  | tick (s : DUSBState) : Step s (dusb_in_timer s)
  | reset (s : DUSBState) : Step s (dusb_handle_reset s)
  | realize (s : DUSBState) : Step s (dusb_realize s)

/-- The staged-length invariant: endpoint 1 (slot 0) holds 0 or 64 staged
bytes, endpoints 2 and 3 (slots 1 and 2) hold 0 or 1024. -/
def lenInv (s : DUSBState) : Prop :=
  (s.inDataLen 0 = 0 ∨ s.inDataLen 0 = 64) ∧
  (s.inDataLen 1 = 0 ∨ s.inDataLen 1 = 1024) ∧
  (s.inDataLen 2 = 0 ∨ s.inDataLen 2 = 1024)

/-- Reachability from a given state through any finite sequence of device
operations. -/
def Reachable (s0 s : DUSBState) : Prop :=
  Relation.ReflTransGen Step s0 s

theorem dusb_handle_control_decode (s : DUSBState) (rt br value index length : Nat)
    (h1 : rt < 256) (h2 : br < 256) :
    dusb_handle_control s (rt + 256 * br) value index length =
      (match (if br = USB_REQ_GET_DESCRIPTOR ∧ value / 256 = USB_DT_BOS then
                dusb_handle_bos_descriptor value length
              else none) with
       | some bytes =>
         { status := USBRet.success, actualLength := bytes.length, data := bytes,
           state := s }
       | none =>
         match usb_desc_handle_control s.speed br value with
         | some n =>
           { status := USBRet.success, actualLength := n, data := [], state := s }
         | none => dusb_control_switch s rt br value index length) := by
  have e1 : (rt + 256 * br) % 256 = rt := by omega
  have e2 : (rt + 256 * br) / 256 % 256 = br := by omega
  simp only [dusb_handle_control, e1, e2]

theorem bos_control_eq (s : DUSBState) (rt value index length : Nat)
    (hrt : rt < 256) (hv : value / 256 = USB_DT_BOS) :
    dusb_handle_control s (rt + 256 * USB_REQ_GET_DESCRIPTOR) value index length =
      { status := USBRet.success, actualLength := min length 22,
        data := bos_descriptor.take (min length 22), state := s } := by
  rw [dusb_handle_control_decode s rt USB_REQ_GET_DESCRIPTOR value index length hrt
    (by norm_num [USB_REQ_GET_DESCRIPTOR])]
  rw [if_pos ⟨rfl, hv⟩]
  have hb : bos_descriptor.length = 22 := rfl
  simp only [dusb_handle_bos_descriptor, hv, USB_DT_BOS, if_true, reduceIte, hb,
    List.length_take]
  have hm : min (min length 22) 22 = min length 22 := by omega
  rw [hm]

/-- Claim C1: for every GET_DESCRIPTOR(BOS) control request the transfer
succeeds with no state change; if the buffer length is at least 22,
exactly the 22 specified BOS descriptor bytes are written in order and
`actual_length = 22`; if the buffer is smaller, exactly that many leading
bytes are written and `actual_length` equals the buffer length. -/
theorem C1_bos_descriptor_roundtrip (s : DUSBState) (rt value index length : Nat)
    (hrt : rt < 256) (hv : value / 256 = USB_DT_BOS) :
    (dusb_handle_control s (rt + 256 * USB_REQ_GET_DESCRIPTOR) value index length).status
        = USBRet.success ∧
    (dusb_handle_control s (rt + 256 * USB_REQ_GET_DESCRIPTOR) value index length).state = s ∧
    (dusb_handle_control s (rt + 256 * USB_REQ_GET_DESCRIPTOR) value index length).actualLength
        = min length 22 ∧
    (dusb_handle_control s (rt + 256 * USB_REQ_GET_DESCRIPTOR) value index length).data
        = bos_descriptor.take (min length 22) ∧
    (22 ≤ length →
      (dusb_handle_control s (rt + 256 * USB_REQ_GET_DESCRIPTOR) value index length).actualLength
          = 22 ∧
      (dusb_handle_control s (rt + 256 * USB_REQ_GET_DESCRIPTOR) value index length).data
          = [0x05, 0x0F, 0x16, 0x00, 0x02,
             0x07, 0x10, 0x02, 0x02, 0x00, 0x00, 0x00,
             0x0A, 0x10, 0x03, 0x00, 0x0E, 0x00, 0x01, 0x0A, 0xFF, 0x07]) ∧
    (length < 22 →
      (dusb_handle_control s (rt + 256 * USB_REQ_GET_DESCRIPTOR) value index length).actualLength
          = length ∧
      (dusb_handle_control s (rt + 256 * USB_REQ_GET_DESCRIPTOR) value index length).data
          = bos_descriptor.take length) := by
  rw [bos_control_eq s rt value index length hrt hv]
  refine ⟨rfl, rfl, rfl, rfl, ?_, ?_⟩
  · intro h22
    have hm : min length 22 = 22 := by omega
    rw [hm]
    exact ⟨rfl, rfl⟩
  · intro h22
    have hm : min length 22 = length := by omega
    rw [hm]
    exact ⟨rfl, rfl⟩

theorem C1_witness :
    (0x80 : Nat) < 256 ∧ (0x0F00 : Nat) / 256 = USB_DT_BOS ∧
    ((dusb_handle_control initDusb (0x80 + 256 * USB_REQ_GET_DESCRIPTOR) 0x0F00 0 22).status
        = USBRet.success ∧
     (dusb_handle_control initDusb (0x80 + 256 * USB_REQ_GET_DESCRIPTOR) 0x0F00 0 22).state
        = initDusb ∧
     (dusb_handle_control initDusb (0x80 + 256 * USB_REQ_GET_DESCRIPTOR) 0x0F00 0 22).actualLength
        = min 22 22 ∧
     (dusb_handle_control initDusb (0x80 + 256 * USB_REQ_GET_DESCRIPTOR) 0x0F00 0 22).data
        = bos_descriptor.take (min 22 22) ∧
     (22 ≤ 22 →
       (dusb_handle_control initDusb (0x80 + 256 * USB_REQ_GET_DESCRIPTOR) 0x0F00 0 22).actualLength
          = 22 ∧
       (dusb_handle_control initDusb (0x80 + 256 * USB_REQ_GET_DESCRIPTOR) 0x0F00 0 22).data
          = [0x05, 0x0F, 0x16, 0x00, 0x02,
             0x07, 0x10, 0x02, 0x02, 0x00, 0x00, 0x00,
             0x0A, 0x10, 0x03, 0x00, 0x0E, 0x00, 0x01, 0x0A, 0xFF, 0x07]) ∧
     (22 < 22 →
       (dusb_handle_control initDusb (0x80 + 256 * USB_REQ_GET_DESCRIPTOR) 0x0F00 0 22).actualLength
          = 22 ∧
       (dusb_handle_control initDusb (0x80 + 256 * USB_REQ_GET_DESCRIPTOR) 0x0F00 0 22).data
          = bos_descriptor.take 22)) :=
  ⟨by decide, by decide,
   C1_bos_descriptor_roundtrip initDusb 0x80 0x0F00 0 22 (by decide) (by decide)⟩

/-- Claim C2: a data transfer on an endpoint numbered 1-3 whose direction
conflicts with the active alternate setting (IN while `alt[0] != 1`, OUT
while `alt[0] != 0`) stalls, for every halt state and every staging
content (the state `s` is arbitrary). -/
theorem C2_direction_conflict_stalls (s : DUSBState) (epNum iovSize : Nat) (isIn : Bool)
    (h1 : 1 ≤ epNum) (h2 : epNum ≤ 3)
    (hconf : (isIn = true ∧ s.alt0 ≠ 1) ∨ (isIn = false ∧ s.alt0 ≠ 0)) :
    (dusb_handle_data s epNum isIn iovSize).status = USBRet.stall := by
  unfold dusb_handle_data
  split
  · rfl
  · rw [if_pos]
    refine ⟨h1, h2, ?_⟩
    rcases hconf with ⟨hi, ha⟩ | ⟨hi, ha⟩ <;> subst hi <;> simp [ha]

theorem C2_witness :
    (1 : Nat) ≤ 1 ∧ (1 : Nat) ≤ 3 ∧
    (((true : Bool) = true ∧ initDusb.alt0 ≠ 1) ∨ ((true : Bool) = false ∧ initDusb.alt0 ≠ 0)) ∧
    (dusb_handle_data initDusb 1 true 64).status = USBRet.stall :=
  ⟨by decide, by decide, Or.inl ⟨rfl, by decide⟩,
   C2_direction_conflict_stalls initDusb 1 64 true (by decide) (by decide)
     (Or.inl ⟨rfl, by decide⟩)⟩

theorem handle_data_in_ready (s : DUSBState) (epNum iovSize : Nat)
    (hh : s.halted true epNum = false) (ha : s.alt0 = 1)
    (hlen : 0 < s.inDataLen (epNum - 1)) :
    dusb_handle_data s epNum true iovSize =
      { status := USBRet.success,
        actualLength := min iovSize (s.inDataLen (epNum - 1)),
        hostData :=
          (List.range (min iovSize (s.inDataLen (epNum - 1)))).map (s.inData (epNum - 1)),
        state := { s with
          inDataLen := fun j => if j = epNum - 1 then 0 else s.inDataLen j } } := by
  simp [dusb_handle_data, hh, ha, hlen]

theorem handle_data_in_empty (s : DUSBState) (epNum iovSize : Nat)
    (hh : s.halted true epNum = false) (ha : s.alt0 = 1)
    (hlen : s.inDataLen (epNum - 1) = 0) :
    dusb_handle_data s epNum true iovSize =
      { status := USBRet.nak, actualLength := 0, hostData := [], state := s } := by
  simp [dusb_handle_data, hh, ha, hlen]

/-- Claim C3: an IN transfer on endpoint 1-3 with the endpoint not halted
and `alt[0] = 1` serves `min(requested_length, valid_len)` staged bytes
with SUCCESS and clears the staged length when the staged length is
positive — so an immediately following IN transfer on the same endpoint
NAKs — and NAKs without any state change when the staged length is 0. -/
theorem C3_in_transfer_consume_once (s : DUSBState) (epNum iovSize iovSize2 : Nat)
    (h1 : 1 ≤ epNum) (h2 : epNum ≤ 3)
    (hh : s.halted true epNum = false) (ha : s.alt0 = 1) :
    (0 < s.inDataLen (epNum - 1) →
      (dusb_handle_data s epNum true iovSize).status = USBRet.success ∧
      (dusb_handle_data s epNum true iovSize).actualLength
          = min iovSize (s.inDataLen (epNum - 1)) ∧
      (dusb_handle_data s epNum true iovSize).hostData
          = (List.range (min iovSize (s.inDataLen (epNum - 1)))).map
              (s.inData (epNum - 1)) ∧
      (dusb_handle_data s epNum true iovSize).state.inDataLen (epNum - 1) = 0 ∧
      (dusb_handle_data (dusb_handle_data s epNum true iovSize).state
          epNum true iovSize2).status = USBRet.nak ∧
      (dusb_handle_data (dusb_handle_data s epNum true iovSize).state
          epNum true iovSize2).state = (dusb_handle_data s epNum true iovSize).state) ∧
    (s.inDataLen (epNum - 1) = 0 →
      (dusb_handle_data s epNum true iovSize).status = USBRet.nak ∧
      (dusb_handle_data s epNum true iovSize).state = s) := by
  constructor
  · intro hlen
    rw [handle_data_in_ready s epNum iovSize hh ha hlen]
    refine ⟨rfl, rfl, rfl, by simp, ?_, ?_⟩
    · rw [handle_data_in_empty
        { s with inDataLen := fun j => if j = epNum - 1 then 0 else s.inDataLen j }
        epNum iovSize2 hh ha (by simp)]
    · rw [handle_data_in_empty
        { s with inDataLen := fun j => if j = epNum - 1 then 0 else s.inDataLen j }
        epNum iovSize2 hh ha (by simp)]
  · intro hlen
    rw [handle_data_in_empty s epNum iovSize hh ha hlen]
    exact ⟨rfl, rfl⟩

theorem C3_witness :
    (1 : Nat) ≤ 1 ∧ (1 : Nat) ≤ 3 ∧
    (stagedDusb.halted true 1 = false) ∧ (stagedDusb.alt0 = 1) ∧
    (0 < stagedDusb.inDataLen 0 →
      (dusb_handle_data stagedDusb 1 true 16).status = USBRet.success ∧
      (dusb_handle_data stagedDusb 1 true 16).actualLength
          = min 16 (stagedDusb.inDataLen 0) ∧
      (dusb_handle_data stagedDusb 1 true 16).hostData
          = (List.range (min 16 (stagedDusb.inDataLen 0))).map (stagedDusb.inData 0) ∧
      (dusb_handle_data stagedDusb 1 true 16).state.inDataLen 0 = 0 ∧
      (dusb_handle_data (dusb_handle_data stagedDusb 1 true 16).state 1 true 8).status
          = USBRet.nak ∧
      (dusb_handle_data (dusb_handle_data stagedDusb 1 true 16).state 1 true 8).state
          = (dusb_handle_data stagedDusb 1 true 16).state) ∧
    (stagedDusb.inDataLen 0 = 0 →
      (dusb_handle_data stagedDusb 1 true 16).status = USBRet.nak ∧
      (dusb_handle_data stagedDusb 1 true 16).state = stagedDusb) :=
  ⟨by decide, by decide, rfl, rfl,
   (C3_in_transfer_consume_once stagedDusb 1 16 8 (by decide) (by decide) rfl rfl).1,
   (C3_in_transfer_consume_once stagedDusb 1 16 8 (by decide) (by decide) rfl rfl).2⟩

/-- Claim C4: starting from `alt[0] = 1` and cursor 0, three consecutive
IN-producer ticks stage endpoint 1 (valid length 64), then endpoint 2
(1024), then endpoint 3 (1024), in that order; each tick advances the
cursor by one and refreshes exactly one endpoint's buffer, leaving the
other two endpoints' buffers and lengths untouched. -/
theorem C4_round_robin_three_ticks (s : DUSBState)
    (ha : s.alt0 = 1) (hc : s.currentInEp = 0) :
    (dusb_in_timer s).inDataLen 0 = 64 ∧
    (dusb_in_timer s).inDataLen 1 = s.inDataLen 1 ∧
    (dusb_in_timer s).inDataLen 2 = s.inDataLen 2 ∧
    (dusb_in_timer s).inData 1 = s.inData 1 ∧
    (dusb_in_timer s).inData 2 = s.inData 2 ∧
    (dusb_in_timer s).inData 0 0 = 1 ∧
    (dusb_in_timer s).currentInEp = s.currentInEp + 1 ∧
    (dusb_in_timer (dusb_in_timer s)).inDataLen 1 = 1024 ∧
    (dusb_in_timer (dusb_in_timer s)).inDataLen 0 = (dusb_in_timer s).inDataLen 0 ∧
    (dusb_in_timer (dusb_in_timer s)).inDataLen 2 = (dusb_in_timer s).inDataLen 2 ∧
    (dusb_in_timer (dusb_in_timer s)).inData 0 = (dusb_in_timer s).inData 0 ∧
    (dusb_in_timer (dusb_in_timer s)).inData 2 = (dusb_in_timer s).inData 2 ∧
    (dusb_in_timer (dusb_in_timer s)).inData 1 0 = 2 ∧
    (dusb_in_timer (dusb_in_timer s)).currentInEp = (dusb_in_timer s).currentInEp + 1 ∧
    (dusb_in_timer (dusb_in_timer (dusb_in_timer s))).inDataLen 2 = 1024 ∧
    (dusb_in_timer (dusb_in_timer (dusb_in_timer s))).inDataLen 0
        = (dusb_in_timer (dusb_in_timer s)).inDataLen 0 ∧
    (dusb_in_timer (dusb_in_timer (dusb_in_timer s))).inDataLen 1
        = (dusb_in_timer (dusb_in_timer s)).inDataLen 1 ∧
    (dusb_in_timer (dusb_in_timer (dusb_in_timer s))).inData 0
        = (dusb_in_timer (dusb_in_timer s)).inData 0 ∧
    (dusb_in_timer (dusb_in_timer (dusb_in_timer s))).inData 1
        = (dusb_in_timer (dusb_in_timer s)).inData 1 ∧
    (dusb_in_timer (dusb_in_timer (dusb_in_timer s))).inData 2 0 = 3 ∧
    (dusb_in_timer (dusb_in_timer (dusb_in_timer s))).currentInEp
        = (dusb_in_timer (dusb_in_timer s)).currentInEp + 1 := by
  simp [dusb_in_timer, in_timer_buf, ha, hc]

theorem C4_witness :
    (({ initDusb with alt0 := 1 } : DUSBState).alt0 = 1) ∧
    (({ initDusb with alt0 := 1 } : DUSBState).currentInEp = 0) ∧
    (dusb_in_timer { initDusb with alt0 := 1 }).inDataLen 0 = 64 ∧
    (dusb_in_timer (dusb_in_timer { initDusb with alt0 := 1 })).inDataLen 1 = 1024 ∧
    (dusb_in_timer (dusb_in_timer (dusb_in_timer
        { initDusb with alt0 := 1 }))).inDataLen 2 = 1024 :=
  ⟨rfl, rfl,
   (C4_round_robin_three_ticks { initDusb with alt0 := 1 } rfl rfl).1,
   (C4_round_robin_three_ticks { initDusb with alt0 := 1 } rfl rfl).2.2.2.2.2.2.2.1,
   (C4_round_robin_three_ticks { initDusb with alt0 := 1 } rfl rfl).2.2.2.2.2.2.2.2.2.2.2.2.2.2.1⟩

/-- Claim C5: reset clears the address, configuration, remote-wakeup
enable, alternate setting and every staged IN length, and cancels the IN
timer; and an IN-timer tick that fires immediately after reset stages no
data (every staged length stays 0), because the alternate-setting
precondition is re-checked inside the tick handler. -/
theorem C5_reset_clears_and_tick_stages_nothing (s : DUSBState) :
    (dusb_handle_reset s).addr = 0 ∧
    (dusb_handle_reset s).configuration = 0 ∧
    (dusb_handle_reset s).remoteWakeup = false ∧
    (dusb_handle_reset s).alt0 = 0 ∧
    (∀ j, (dusb_handle_reset s).inDataLen j = 0) ∧
    (dusb_handle_reset s).inTimerArmed = false ∧
    (∀ j, (dusb_in_timer (dusb_handle_reset s)).inDataLen j = 0) := by
  refine ⟨rfl, rfl, rfl, rfl, fun j => rfl, rfl, fun j => ?_⟩
  simp [dusb_in_timer, dusb_handle_reset]

/-- Claim C6: SET_INTERFACE on interface 0 with value 0 or 1 succeeds with
`actual_length = 0` and sets `alt[0]` to the value, value 0 additionally
clearing all staged IN lengths and value 1 leaving them unchanged; any
value of 2 or more stalls and leaves the whole device state unchanged. -/
theorem C6_set_interface (s : DUSBState) (rt value length : Nat)
    (hrt : rt < 256) (hrec : rt &&& USB_RECIP_MASK = USB_RECIP_INTERFACE) :
    (value = 0 →
      (dusb_handle_control s (rt + 256 * USB_REQ_SET_INTERFACE) value 0 length).status
          = USBRet.success ∧
      (dusb_handle_control s (rt + 256 * USB_REQ_SET_INTERFACE) value 0 length).actualLength
          = 0 ∧
      (dusb_handle_control s (rt + 256 * USB_REQ_SET_INTERFACE) value 0 length).state.alt0
          = 0 ∧
      (∀ j, (dusb_handle_control s (rt + 256 * USB_REQ_SET_INTERFACE) value 0 length).state.inDataLen j
          = 0)) ∧
    (value = 1 →
      (dusb_handle_control s (rt + 256 * USB_REQ_SET_INTERFACE) value 0 length).status
          = USBRet.success ∧
      (dusb_handle_control s (rt + 256 * USB_REQ_SET_INTERFACE) value 0 length).actualLength
          = 0 ∧
      (dusb_handle_control s (rt + 256 * USB_REQ_SET_INTERFACE) value 0 length).state.alt0
          = 1 ∧
      (dusb_handle_control s (rt + 256 * USB_REQ_SET_INTERFACE) value 0 length).state.inDataLen
          = s.inDataLen) ∧
    (2 ≤ value →
      (dusb_handle_control s (rt + 256 * USB_REQ_SET_INTERFACE) value 0 length).status
          = USBRet.stall ∧
      (dusb_handle_control s (rt + 256 * USB_REQ_SET_INTERFACE) value 0 length).state
          = s) := by
  rw [dusb_handle_control_decode s rt USB_REQ_SET_INTERFACE value 0 length hrt
    (by norm_num [USB_REQ_SET_INTERFACE])]
  rw [if_neg (by norm_num [USB_REQ_SET_INTERFACE, USB_REQ_GET_DESCRIPTOR])]
  rw [show usb_desc_handle_control s.speed USB_REQ_SET_INTERFACE value = none from by
    simp [usb_desc_handle_control, USB_REQ_SET_INTERFACE, USB_REQ_GET_DESCRIPTOR]]
  simp only [USB_RECIP_MASK, USB_RECIP_INTERFACE] at hrec
  refine ⟨?_, ?_, ?_⟩
  · intro h0
    subst h0
    simp [dusb_control_switch, hrec, USB_REQ_GET_STATUS, USB_REQ_CLEAR_FEATURE,
      USB_REQ_SET_FEATURE, USB_REQ_SET_INTERFACE, USB_REQ_SET_SEL, USB_RECIP_MASK,
      USB_RECIP_INTERFACE, USB_RECIP_DEVICE, USB_RECIP_ENDPOINT,
      USB_DEVICE_REMOTE_WAKEUP]
  · intro h1
    subst h1
    simp [dusb_control_switch, hrec, USB_REQ_GET_STATUS, USB_REQ_CLEAR_FEATURE,
      USB_REQ_SET_FEATURE, USB_REQ_SET_INTERFACE, USB_REQ_SET_SEL, USB_RECIP_MASK,
      USB_RECIP_INTERFACE, USB_RECIP_DEVICE, USB_RECIP_ENDPOINT,
      USB_DEVICE_REMOTE_WAKEUP]
  · intro h2
    have hv2 : ¬ value < 2 := by omega
    simp [dusb_control_switch, controlStall, hrec, hv2, USB_REQ_GET_STATUS,
      USB_REQ_CLEAR_FEATURE, USB_REQ_SET_FEATURE, USB_REQ_SET_INTERFACE,
      USB_REQ_SET_SEL, USB_RECIP_MASK, USB_RECIP_INTERFACE, USB_RECIP_DEVICE,
      USB_RECIP_ENDPOINT, USB_DEVICE_REMOTE_WAKEUP]

theorem C6_witness :
    (1 : Nat) < 256 ∧ ((1 : Nat) &&& USB_RECIP_MASK = USB_RECIP_INTERFACE) ∧
    ((2 : Nat) = 0 →
      (dusb_handle_control initDusb (1 + 256 * USB_REQ_SET_INTERFACE) 2 0 0).status
          = USBRet.success ∧
      (dusb_handle_control initDusb (1 + 256 * USB_REQ_SET_INTERFACE) 2 0 0).actualLength = 0 ∧
      (dusb_handle_control initDusb (1 + 256 * USB_REQ_SET_INTERFACE) 2 0 0).state.alt0 = 0 ∧
      (∀ j, (dusb_handle_control initDusb (1 + 256 * USB_REQ_SET_INTERFACE) 2 0 0).state.inDataLen j = 0)) ∧
    ((2 : Nat) = 1 →
      (dusb_handle_control initDusb (1 + 256 * USB_REQ_SET_INTERFACE) 2 0 0).status
          = USBRet.success ∧
      (dusb_handle_control initDusb (1 + 256 * USB_REQ_SET_INTERFACE) 2 0 0).actualLength = 0 ∧
      (dusb_handle_control initDusb (1 + 256 * USB_REQ_SET_INTERFACE) 2 0 0).state.alt0 = 1 ∧
      (dusb_handle_control initDusb (1 + 256 * USB_REQ_SET_INTERFACE) 2 0 0).state.inDataLen
          = initDusb.inDataLen) ∧
    ((2 : Nat) ≤ 2 →
      (dusb_handle_control initDusb (1 + 256 * USB_REQ_SET_INTERFACE) 2 0 0).status
          = USBRet.stall ∧
      (dusb_handle_control initDusb (1 + 256 * USB_REQ_SET_INTERFACE) 2 0 0).state
          = initDusb) :=
  ⟨by decide, by decide, C6_set_interface initDusb 1 2 0 (by decide) (by decide)⟩

/-- Claim C7 counterexample: at full speed (not SuperSpeed), a
GET_DESCRIPTOR(BOS) control request is still served with the full 22 BOS
descriptor bytes and SUCCESS, refuting the claim that the BOS descriptor
is served only when the negotiated link speed is SuperSpeed. -/
theorem C7_counterexample_bos_served_at_full_speed :
    ({ initDusb with speed := Speed.full } : DUSBState).speed = Speed.full ∧
    (dusb_handle_control { initDusb with speed := Speed.full }
        (0x80 + 256 * USB_REQ_GET_DESCRIPTOR) 0x0F00 0 22).status = USBRet.success ∧
    (dusb_handle_control { initDusb with speed := Speed.full }
        (0x80 + 256 * USB_REQ_GET_DESCRIPTOR) 0x0F00 0 22).actualLength = 22 ∧
    (dusb_handle_control { initDusb with speed := Speed.full }
        (0x80 + 256 * USB_REQ_GET_DESCRIPTOR) 0x0F00 0 22).data = bos_descriptor := by
  refine ⟨rfl, ?_, ?_, ?_⟩ <;> decide

/-- Claim C7 amended: a GET_DESCRIPTOR(BOS) control request is served with
the BOS descriptor bytes at every negotiated link speed; the device's BOS
short-circuit answers it ahead of the standard-descriptor path without
consulting the speed. -/
theorem C7_amended_bos_served_at_every_speed (s : DUSBState) (sp : Speed)
    (rt value index length : Nat)
    (hrt : rt < 256) (hv : value / 256 = USB_DT_BOS) :
    (dusb_handle_control { s with speed := sp }
        (rt + 256 * USB_REQ_GET_DESCRIPTOR) value index length).status = USBRet.success ∧
    (dusb_handle_control { s with speed := sp }
        (rt + 256 * USB_REQ_GET_DESCRIPTOR) value index length).actualLength
        = min length 22 ∧
    (dusb_handle_control { s with speed := sp }
        (rt + 256 * USB_REQ_GET_DESCRIPTOR) value index length).data
        = bos_descriptor.take (min length 22) := by
  rw [bos_control_eq { s with speed := sp } rt value index length hrt hv]
  exact ⟨rfl, rfl, rfl⟩

theorem C7_amended_witness :
    (0x80 : Nat) < 256 ∧ (0x0F05 : Nat) / 256 = USB_DT_BOS ∧
    ((dusb_handle_control { initDusb with speed := Speed.high }
        (0x80 + 256 * USB_REQ_GET_DESCRIPTOR) 0x0F05 0 5).status = USBRet.success ∧
     (dusb_handle_control { initDusb with speed := Speed.high }
        (0x80 + 256 * USB_REQ_GET_DESCRIPTOR) 0x0F05 0 5).actualLength = min 5 22 ∧
     (dusb_handle_control { initDusb with speed := Speed.high }
        (0x80 + 256 * USB_REQ_GET_DESCRIPTOR) 0x0F05 0 5).data
        = bos_descriptor.take (min 5 22)) :=
  ⟨by decide, by decide,
   C7_amended_bos_served_at_every_speed initDusb Speed.high 0x80 0x0F05 0 5
     (by decide) (by decide)⟩

/-- Claim C8: a data transfer on endpoint 1-3, whatever its outcome,
leaves the staging buffers and staged lengths of every endpoint other
than the addressed one unchanged (indeed no transfer changes any buffer
contents), and a transfer that stalls or NAKs changes no device state at
all. -/
theorem C8_data_frame_effect (s : DUSBState) (epNum iovSize : Nat) (isIn : Bool)
    (h1 : 1 ≤ epNum) (h2 : epNum ≤ 3) :
    (∀ j, j ≠ epNum - 1 →
      (dusb_handle_data s epNum isIn iovSize).state.inData j = s.inData j ∧
      (dusb_handle_data s epNum isIn iovSize).state.inDataLen j = s.inDataLen j) ∧
    (∀ j, (dusb_handle_data s epNum isIn iovSize).state.inData j = s.inData j) ∧
    (((dusb_handle_data s epNum isIn iovSize).status = USBRet.stall ∨
      (dusb_handle_data s epNum isIn iovSize).status = USBRet.nak) →
      (dusb_handle_data s epNum isIn iovSize).state = s) := by
  unfold dusb_handle_data
  split_ifs with hA hB hC
  · exact ⟨fun j hj => ⟨rfl, rfl⟩, fun j => rfl, fun _ => rfl⟩
  · exact ⟨fun j hj => ⟨rfl, rfl⟩, fun j => rfl, fun _ => rfl⟩
  · exact ⟨fun j hj => ⟨rfl, rfl⟩, fun j => rfl, fun h => by simp at h⟩
  · refine ⟨fun j hj => ?_, fun j => ?_, fun h => ?_⟩
    · by_cases hlen : 0 < s.inDataLen (epNum - 1) <;> simp [hlen, hj]
    · by_cases hlen : 0 < s.inDataLen (epNum - 1) <;> simp [hlen]
    · by_cases hlen : 0 < s.inDataLen (epNum - 1)
      · simp [hlen] at h
      · simp [hlen]

theorem C8_witness :
    (1 : Nat) ≤ 2 ∧ (2 : Nat) ≤ 3 ∧
    ((∀ j, j ≠ 1 →
      (dusb_handle_data initDusb 2 false 8).state.inData j = initDusb.inData j ∧
      (dusb_handle_data initDusb 2 false 8).state.inDataLen j = initDusb.inDataLen j) ∧
     (∀ j, (dusb_handle_data initDusb 2 false 8).state.inData j = initDusb.inData j) ∧
     (((dusb_handle_data initDusb 2 false 8).status = USBRet.stall ∨
       (dusb_handle_data initDusb 2 false 8).status = USBRet.nak) →
       (dusb_handle_data initDusb 2 false 8).state = initDusb)) :=
  ⟨by decide, by decide, C8_data_frame_effect initDusb 2 8 false (by decide) (by decide)⟩

/-- Claim C9 counterexample: an IN-producer tick that fires with
`alt[0] != 1` and the timer disarmed leaves the timer armed afterwards —
`timer_mod` runs unconditionally at the end of `dusb_in_timer` — refuting
the part of the claim that says such a tick does not reschedule the IN
timer. -/
theorem C9_counterexample_tick_reschedules :
    initDusb.alt0 ≠ 1 ∧ initDusb.inTimerArmed = false ∧
    (dusb_in_timer initDusb).inTimerArmed = true := by
  refine ⟨by decide, rfl, rfl⟩

/-- Claim C9 amended: an IN-producer tick with `alt[0] != 1` modifies no
staging buffer, staged length, cursor or other device state — the whole
effect is re-arming the IN timer, which the tick does unconditionally. -/
theorem C9_amended_tick_noop_but_rearms (s : DUSBState) (h : s.alt0 ≠ 1) :
    dusb_in_timer s = { s with inTimerArmed := true } := by
  unfold dusb_in_timer
  rw [if_neg h]

theorem C9_amended_witness :
    initDusb.alt0 ≠ 1 ∧
    dusb_in_timer initDusb = { initDusb with inTimerArmed := true } :=
  ⟨by decide, C9_amended_tick_noop_but_rearms initDusb (by decide)⟩

theorem control_state_inDataLen (s : DUSBState) (request value index length : Nat)
    (j : Nat) :
    (dusb_handle_control s request value index length).state.inDataLen j
        = s.inDataLen j ∨
    (dusb_handle_control s request value index length).state.inDataLen j = 0 := by
  simp only [dusb_handle_control]
  split
  · exact Or.inl rfl
  · split
    · exact Or.inl rfl
    · simp only [dusb_control_switch, controlStall]
      split_ifs <;> simp

theorem data_state_inDataLen (s : DUSBState) (epNum iovSize : Nat) (isIn : Bool)
    (j : Nat) :
    (dusb_handle_data s epNum isIn iovSize).state.inDataLen j = s.inDataLen j ∨
    (dusb_handle_data s epNum isIn iovSize).state.inDataLen j = 0 := by
  unfold dusb_handle_data
  split_ifs with hA hB hC
  · exact Or.inl rfl
  · exact Or.inl rfl
  · exact Or.inl rfl
  · by_cases hlen : 0 < s.inDataLen (epNum - 1)
    · by_cases hj : j = epNum - 1 <;> simp [hlen, hj]
    · simp [hlen]

theorem tick_preserves_lenInv (s : DUSBState) (h : lenInv s) :
    lenInv (dusb_in_timer s) := by
  obtain ⟨h0, h1, h2⟩ := h
  unfold dusb_in_timer
  split
  · have hm : s.currentInEp % 3 = 0 ∨ s.currentInEp % 3 = 1 ∨ s.currentInEp % 3 = 2 := by
      omega
    rcases hm with hm | hm | hm <;>
      simp [lenInv, hm, h0, h1, h2]
  · exact ⟨h0, h1, h2⟩

theorem step_preserves_lenInv (s t : DUSBState) (h : lenInv s) (hst : Step s t) :
    lenInv t := by
  obtain ⟨h0, h1, h2⟩ := h
  cases hst with
  | control request value index length =>
    refine ⟨?_, ?_, ?_⟩
    · rcases control_state_inDataLen s request value index length 0 with he | he <;>
        rw [he]
      · exact h0
      · exact Or.inl rfl
    · rcases control_state_inDataLen s request value index length 1 with he | he <;>
        rw [he]
      · exact h1
      · exact Or.inl rfl
    · rcases control_state_inDataLen s request value index length 2 with he | he <;>
        rw [he]
      · exact h2
      · exact Or.inl rfl
  | data epNum isIn iovSize hep1 hep2 =>
    refine ⟨?_, ?_, ?_⟩
    · rcases data_state_inDataLen s epNum iovSize isIn 0 with he | he <;> rw [he]
      · exact h0
      · exact Or.inl rfl
    · rcases data_state_inDataLen s epNum iovSize isIn 1 with he | he <;> rw [he]
      · exact h1
      · exact Or.inl rfl
    · rcases data_state_inDataLen s epNum iovSize isIn 2 with he | he <;> rw [he]
      · exact h2
      · exact Or.inl rfl
  | tick => exact tick_preserves_lenInv s ⟨h0, h1, h2⟩
  | reset => exact ⟨Or.inl rfl, Or.inl rfl, Or.inl rfl⟩
  | realize => exact ⟨Or.inl rfl, Or.inl rfl, Or.inl rfl⟩

theorem realize_lenInv (s0 : DUSBState) : lenInv (dusb_realize s0) :=
  ⟨Or.inl rfl, Or.inl rfl, Or.inl rfl⟩

/-- Claim C10: in every state reachable from realization through any
sequence of control transfers, data transfers on endpoints 1-3,
IN-producer ticks, resets and realizations, the staged length of endpoint
1 is 0 or 64 and the staged lengths of endpoints 2 and 3 are 0 or 1024;
and every single operation preserves this invariant. -/
theorem C10_staged_length_invariant :
    (∀ s0 s : DUSBState, Reachable (dusb_realize s0) s → lenInv s) ∧
    (∀ s t : DUSBState, lenInv s → Step s t → lenInv t) := by
  constructor
  · intro s0 s h
    induction h with
    | refl => exact realize_lenInv s0
    | tail hab hbc ih => exact step_preserves_lenInv _ _ ih hbc
  · exact step_preserves_lenInv

theorem C10_witness : lenInv (dusb_realize initDusb) :=
  C10_staged_length_invariant.1 initDusb (dusb_realize initDusb)
    Relation.ReflTransGen.refl
